import Mathlib

/-!
Verification of the parking-coordination chat assistant backend
(`CopilotParkingBackend/src/routes/conversationRoutes.ts`) and the frontend
user-state slice (`copilot-frontend/src/store/userSlice.ts`), as a shallow
embedding in Lean 4.

The Prisma store is modelled as explicit lists of records; HTTP responses are
modelled as explicit result values; the third-party completion API reply is a
parameter (it is an external dependency reached over HTTP).  The contents of
the canned templates in `messageTemplates` are parameters as well: that module
is not part of the sources, only its call sites are, so a template's content
string stands in for `messageTemplates.x(user, event).content`.
-/

namespace Copilot

/-! ## String primitives

JavaScript's `String.prototype.includes`, `String.prototype.toLowerCase` and
the regex `^[^.!?]+[.!?]` used by the smart-response handler, modelled over
`List Char`. -/

/-- Does the needle occur as a prefix of the haystack? -/
def isPrefixB : List Char → List Char → Bool
  | [], _ => true
  | _ :: _, [] => false
  | a :: as, b :: bs => a == b && isPrefixB as bs

/-- Does the needle occur as a contiguous substring of the haystack? -/
def containsB (needle : List Char) : List Char → Bool
  | [] => isPrefixB needle []
  | h :: t => isPrefixB needle (h :: t) || containsB needle t

/-- JavaScript `hay.includes(needle)`. -/
def strIncludes (hay needle : String) : Bool :=
  containsB needle.data hay.data

/-- JavaScript `s.toLowerCase()` (ASCII case folding, which covers every
string the handler compares against). -/
def toLowerStr (s : String) : String :=
  String.mk (s.data.map Char.toLower)

/-- `hay.toLowerCase().includes(needle)`, the shape of every condition in the
smart-response template heuristics. -/
def lowIncludes (hay needle : String) : Bool :=
  strIncludes (toLowerStr hay) needle

/-- Is the character a sentence terminator of the regex `[.!?]`? -/
def sentenceEnd (c : Char) : Bool :=
  c == '.' || c == '!' || c == '?'

/-- `aiMessage.match(/^[^.!?]+[.!?]/)?.[0] || aiMessage`: the first sentence of
the message when the regex matches, otherwise the whole message. -/
def firstSentence (s : String) : String :=
  let pre := s.data.takeWhile (fun c => !(sentenceEnd c))
  if pre.isEmpty then s
  else
    match s.data.drop pre.length with
    | [] => s
    | t :: _ => String.mk (pre ++ [t])

/-! ## Data model

Record shapes as used by the routes.  The Prisma schema file is not among the
sources; the fields below are the ones the route code reads or writes, plus
one representative extra attribute per record so that frame properties are
expressible.  `createdAt` is a logical timestamp. -/

structure Conversation where
  conversationId : String
  eventUserId : String
  sender : String
  message : String
  createdAt : Nat
deriving DecidableEq, Repr

structure User where
  id : String
  email : String
  carPlate : Option String
deriving DecidableEq, Repr

structure Event where
  id : String
  eventName : String
deriving DecidableEq, Repr

structure EventUser where
  id : String
  userId : String
  eventId : String
deriving DecidableEq, Repr

/-- The relational store backing the routes. -/
structure DB where
  users : List User
  events : List Event
  eventUsers : List EventUser
  conversations : List Conversation
deriving DecidableEq, Repr

/-- `prisma.conversation.findMany({where:{eventUserId}, orderBy:{createdAt:'asc'}})`:
ascending order on `createdAt`. -/
def convLe (a b : Conversation) : Prop :=
  a.createdAt ≤ b.createdAt

instance : DecidableRel convLe := fun a b =>
  inferInstanceAs (Decidable (a.createdAt ≤ b.createdAt))

instance : IsTotal Conversation convLe :=
  ⟨fun a b => Nat.le_total a.createdAt b.createdAt⟩

instance : IsTrans Conversation convLe :=
  ⟨fun _ _ _ h h' => Nat.le_trans h h'⟩

/-- The conversations of one event user, ascending by creation time. -/
def matchingAsc (convs : List Conversation) (eventUserId : String) : List Conversation :=
  List.insertionSort convLe (convs.filter (fun c => c.eventUserId == eventUserId))

/-- The history query of the smart-response handler:
`findMany({where:{eventUserId}, orderBy:{createdAt:'asc'}, take:10})`. -/
def historyQuery (convs : List Conversation) (eventUserId : String) : List Conversation :=
  (matchingAsc convs eventUserId).take 10

/-! ## Chat messages sent to the completion API -/

inductive Role where
  | system
  | user
  | assistant
deriving DecidableEq, Repr

structure ChatMessage where
  role : Role
  content : String
deriving DecidableEq, Repr

/-- The `formattedHistory` mapping of the smart-response handler: role `user`
when the record's sender is `'user'`, role `assistant` otherwise. -/
def formatHistory (history : List Conversation) : List ChatMessage :=
  history.map (fun msg =>
    { role := if msg.sender == "user" then Role.user else Role.assistant
      content := msg.message })

/-! ## The template-override heuristics -/

/-- Condition of the first branch: the reply asks for the license plate or for
vehicle registration, and does not say it already has it. -/
def condCarRegistration (ai : String) : Bool :=
  (lowIncludes ai "provide your license plate" ||
   lowIncludes ai "register your vehicle") &&
  !(lowIncludes ai "already have your")

/-- Condition of the second branch: customized cards plus final parking
details or the interactive map. -/
def condFinalRecommendation (ai : String) : Bool :=
  lowIncludes ai "customized cards for visualization" &&
  (lowIncludes ai "your final parking details" ||
   lowIncludes ai "here is your final parking details" ||
   lowIncludes ai "view interactive map")

/-- Condition of the third branch: contacting the event organizer or wrong
meeting information. -/
def condContactAdmin (ai : String) : Bool :=
  lowIncludes ai "contact the event organizer" ||
  lowIncludes ai "meeting information incorrect"

/-- Condition of the fourth branch: a parking recommendation together with a
special need. -/
def condSpecialNeeds (ai : String) : Bool :=
  lowIncludes ai "parking" && lowIncludes ai "recommend" &&
  (lowIncludes ai "pregnant" || lowIncludes ai "injury" ||
   lowIncludes ai "accessibility")

/-- The message produced by the special-needs branch: the first sentence of
the reply followed by the final-recommendation template. -/
def specialNeedsMessage (tFinalRecommendation ai : String) : String :=
  firstSentence ai ++ "\n\n" ++ tFinalRecommendation

/-- The template-override chain of the smart-response handler.
`tCarRegistration`, `tFinalRecommendation`, `tContactAdmin` stand for the
content strings of `messageTemplates.carRegistration(user, event)`,
`.finalRecommendation(user, event)`, `.contactAdmin(user, event)`. -/
def smartFinalMessage (tCarRegistration tFinalRecommendation tContactAdmin : String)
    (ai : String) : String :=
  if condCarRegistration ai then tCarRegistration
  else if condFinalRecommendation ai then tFinalRecommendation
  else if condContactAdmin ai then tContactAdmin
  else if condSpecialNeeds ai then specialNeedsMessage tFinalRecommendation ai
  else ai

/-- First-match-wins selection over a list of guarded outcomes, with a
default: the shape the specification ascribes to the heuristics. -/
def firstMatch : List (Bool × String) → String → String
  | [], d => d
  | (b, r) :: rest, d => if b then r else firstMatch rest d

/-! ## Route handlers -/

/-- Outcome of `POST /api/conversations` (the create handler): 201 with the
created record, or 500 with an error string. -/
inductive CreateResp where
  | created (status : Nat) (record : Conversation)
  | failed (status : Nat) (error : String)
deriving DecidableEq, Repr

/-- `POST /api/conversations`: store a record built from the request body and
answer 201 with it; on a store failure answer 500.  `storeOk` models whether
`prisma.conversation.create` succeeds; `now` is the record's creation time. -/
def createConversation (convs : List Conversation) (storeOk : Bool)
    (eventUserId sender message : String) (now : Nat) :
    CreateResp × List Conversation :=
  if storeOk then
    let record : Conversation :=
      { conversationId := eventUserId
        eventUserId := eventUserId
        sender := sender
        message := message
        createdAt := now }
    (.created 201 record, convs ++ [record])
  else
    (.failed 500 "Failed to create conversation", convs)

/-- Outcome of `GET /api/conversations/:eventUserId`. -/
inductive HistoryResp where
  | ok (status : Nat) (records : List Conversation)
deriving DecidableEq, Repr

/-- `GET /api/conversations/:eventUserId`: the matching records ascending by
creation time; the handler only reads, so the store is returned unchanged. -/
def getConversations (db : DB) (eventUserId : String) : HistoryResp × DB :=
  (.ok 200 (matchingAsc db.conversations eventUserId), db)

/-- Outcome of `POST /api/conversations/smart-response`: on success the
message list sent to the completion API, the final message returned to the
client, and the updated store; 500 otherwise (missing event-user data or a
failing API call are both caught by the handler's `try`). -/
inductive SmartResult where
  | err (status : Nat) (error : String)
  | ok (sent : List ChatMessage) (finalMessage : String) (db : DB)
deriving DecidableEq, Repr

/-- `POST /api/conversations/smart-response`.  `greeting` stands for
`messageTemplates.initialGreeting(user, event)`; `ai` is the reply string the
completion API produced for the request. -/
def smartResponse (db : DB) (greeting : ChatMessage)
    (tCarRegistration tFinalRecommendation tContactAdmin : String)
    (eventUserId message ai : String) (now : Nat) : SmartResult :=
  match db.eventUsers.find? (fun e => e.id == eventUserId) with
  | none => .err 500 "Failed to get AI response"
  | some eu =>
    match db.users.find? (fun u => u.id == eu.userId),
          db.events.find? (fun ev => ev.id == eu.eventId) with
    | some _, some _ =>
      let history := historyQuery db.conversations eventUserId
      let messages := greeting :: formatHistory history ++
        [{ role := Role.user, content := message }]
      let finalMessage :=
        smartFinalMessage tCarRegistration tFinalRecommendation tContactAdmin ai
      let record : Conversation :=
        { conversationId := eventUserId
          eventUserId := eventUserId
          sender := "bot"
          message := finalMessage
          createdAt := now }
      .ok messages finalMessage { db with conversations := db.conversations ++ [record] }
    | _, _ => .err 500 "Failed to get AI response"

/-- Outcome of `POST /api/conversations/chat`: a JSON reply, a 500 error
reply, or no response at all (the handler falls through without sending). -/
inductive ChatResp where
  | json (status : Nat) (body : String)
  | noResponse
deriving DecidableEq, Repr

/-- `POST /api/conversations/chat`.  `tContactAdmin` and `tErrorResponse`
stand for `messageTemplates.contactAdmin(user, event)` and
`messageTemplates.errorResponse`.  A request whose body carries no message
string makes `message.toLowerCase()` throw, which the `catch` answers with
500; that is the handler's only error source, so `message` is an `Option`. -/
def chatHandler (tContactAdmin tErrorResponse : String)
    (message : Option String) : ChatResp :=
  match message with
  | none => .json 500 tErrorResponse
  | some m =>
    if toLowerStr m == "no" then .json 200 tContactAdmin
    else .noResponse

/-- Outcome of `POST /api/conversations/register-plate`. -/
inductive PlateResp where
  | notFound (status : Nat) (error : String)
  | failed (status : Nat) (error : String)
  | ok (status : Nat) (body : Option (EventUser × Option User × Option Event))
deriving DecidableEq, Repr

/-- `POST /api/conversations/register-plate`: look up the event user; 404 when
absent; otherwise set the associated user's `carPlate` and answer with the
re-fetched event user including user and event.  When the associated user
record is missing, `prisma.user.update` throws and the `catch` answers 500. -/
def registerPlate (db : DB) (eventUserId carPlate : String) : PlateResp × DB :=
  match db.eventUsers.find? (fun e => e.id == eventUserId) with
  | none => (.notFound 404 "Event user not found", db)
  | some eu =>
    match db.users.find? (fun u => u.id == eu.userId) with
    | none => (.failed 500 "Failed to register car plate", db)
    | some _ =>
      let users' := db.users.map (fun u =>
        if u.id == eu.userId then { u with carPlate := some carPlate } else u)
      let db' := { db with users := users' }
      let refetched := (db'.eventUsers.find? (fun e => e.id == eventUserId)).map
        (fun e => (e, db'.users.find? (fun u => u.id == e.userId),
                      db'.events.find? (fun ev => ev.id == e.eventId)))
      (.ok 200 refetched, db')

/-! ## Frontend user-state slice (`copilot-frontend/src/store/userSlice.ts`) -/

/-- The frontend `User` shape. -/
structure FrontUser where
  id : String
  email : String
  firstName : String
  lastName : String
  carPlate : Option String
deriving DecidableEq, Repr

/-- `UserState`: exactly the fields `user`, `loading`, `error`. -/
structure UserState where
  user : Option FrontUser
  loading : Bool
  error : Option String
deriving DecidableEq, Repr

/-- `initialState`. -/
def initialState : UserState :=
  { user := none, loading := false, error := none }

/-- Payload of `setUser`: `Omit<UserState, 'loading' | 'error'>`. -/
structure SetUserPayload where
  user : Option FrontUser
deriving DecidableEq, Repr

/-- Reducer `setUser`. -/
def setUser (s : UserState) (p : SetUserPayload) : UserState :=
  { s with user := p.user }

/-- Reducer `setLoading`. -/
def setLoading (s : UserState) (p : Bool) : UserState :=
  { s with loading := p }

/-- Reducer `setError`. -/
def setError (s : UserState) (p : Option String) : UserState :=
  { s with error := p }

/-! ## Example store used by the witnesses -/

def exUser : User := ⟨"u1", "amy@example.com", none⟩

def exEvent : Event := ⟨"ev1", "Expo"⟩

def exEventUser : EventUser := ⟨"eu1", "u1", "ev1"⟩

def exConvA : Conversation := ⟨"eu1", "eu1", "user", "Where can I park?", 1⟩

def exConvB : Conversation := ⟨"eu1", "eu1", "bot", "Lot B is open.", 2⟩

def exDB : DB := ⟨[exUser], [exEvent], [exEventUser], [exConvA, exConvB]⟩

def exGreeting : ChatMessage := ⟨Role.system, "Welcome"⟩

/-- The message list the smart-response handler sends for `exDB`, the new
user message "hi". -/
def exSent : List ChatMessage :=
  [exGreeting, ⟨Role.user, "Where can I park?"⟩,
   ⟨Role.assistant, "Lot B is open."⟩, ⟨Role.user, "hi"⟩]

/-- `exDB` after the smart-response handler stored the reply "Hello there"
at time 7. -/
def exDBAfter : DB :=
  { exDB with conversations := exDB.conversations ++ [⟨"eu1", "eu1", "bot", "Hello there", 7⟩] }

/-! ## Helper lemmas -/

/-- The override chain lands in one of exactly five outcomes. -/
lemma smartFinalMessage_cases (t1 t2 t3 ai : String) :
    smartFinalMessage t1 t2 t3 ai = ai ∨ smartFinalMessage t1 t2 t3 ai = t1 ∨
    smartFinalMessage t1 t2 t3 ai = t2 ∨ smartFinalMessage t1 t2 t3 ai = t3 ∨
    smartFinalMessage t1 t2 t3 ai = specialNeedsMessage t2 ai := by
  unfold smartFinalMessage
  split
  · exact Or.inr (Or.inl rfl)
  split
  · exact Or.inr (Or.inr (Or.inl rfl))
  split
  · exact Or.inr (Or.inr (Or.inr (Or.inl rfl)))
  split
  · exact Or.inr (Or.inr (Or.inr (Or.inr rfl)))
  · exact Or.inl rfl

/-- Inversion of the smart-response handler's success case. -/
lemma smartResponse_ok_inv {db : DB} {g : ChatMessage} {t1 t2 t3 eid msg ai : String}
    {now : Nat} {sent : List ChatMessage} {fin : String} {db' : DB}
    (h : smartResponse db g t1 t2 t3 eid msg ai now = .ok sent fin db') :
    sent = g :: formatHistory (historyQuery db.conversations eid) ++
      [⟨Role.user, msg⟩] ∧
    fin = smartFinalMessage t1 t2 t3 ai ∧
    db' = { db with conversations := db.conversations ++ [⟨eid, eid, "bot", fin, now⟩] } := by
  unfold smartResponse at h
  split at h
  · simp at h
  split at h
  · rw [SmartResult.ok.injEq] at h
    obtain ⟨h1, h2, h3⟩ := h
    refine ⟨h1.symm, h2.symm, ?_⟩
    rw [← h2, ← h3]
  · simp at h

/-- `matchingAsc` is a permutation of the matching records. -/
lemma matchingAsc_perm (convs : List Conversation) (eid : String) :
    (matchingAsc convs eid).Perm (convs.filter (fun c => c.eventUserId == eid)) :=
  List.perm_insertionSort convLe _

/-- `matchingAsc` is ascending on creation time. -/
lemma matchingAsc_sorted (convs : List Conversation) (eid : String) :
    List.Sorted convLe (matchingAsc convs eid) :=
  List.sorted_insertionSort convLe _

/-! ## Claim theorems -/

/-- Claim C2: the template-override heuristics are a fixed first-match-wins
sequence — car registration, then final recommendation, then contact admin,
then special needs — and when no condition holds the model's reply is kept
unchanged. -/
theorem smart_overrides_first_match_wins (t1 t2 t3 ai : String) :
    smartFinalMessage t1 t2 t3 ai =
      firstMatch
        [(condCarRegistration ai, t1),
         (condFinalRecommendation ai, t2),
         (condContactAdmin ai, t3),
         (condSpecialNeeds ai, specialNeedsMessage t2 ai)] ai := by
  simp only [smartFinalMessage, firstMatch]

/-- Claim C5: the create-conversation route stores a record carrying exactly
the supplied `eventUserId`, `sender` and `message` and answers 201 with it;
when the store operation fails it answers 500 with the error string
`Failed to create conversation` and no record is added or returned. -/
theorem createConversation_spec (convs : List Conversation)
    (eid s m : String) (now : Nat) :
    createConversation convs true eid s m now =
      (.created 201 ⟨eid, eid, s, m, now⟩, convs ++ [⟨eid, eid, s, m, now⟩]) ∧
    createConversation convs false eid s m now =
      (.failed 500 "Failed to create conversation", convs) :=
  ⟨rfl, rfl⟩

/-- Claim C7: the user-state slice starts from
`{user: null, loading: false, error: null}`, each reducer changes only its
own field, and a state is nothing but its `user`, `loading` and `error`
fields. -/
theorem userSlice_spec :
    initialState = { user := none, loading := false, error := none } ∧
    (∀ (s : UserState) (p : SetUserPayload),
      (setUser s p).loading = s.loading ∧ (setUser s p).error = s.error ∧
      (setUser s p).user = p.user) ∧
    (∀ (s : UserState) (b : Bool),
      (setLoading s b).user = s.user ∧ (setLoading s b).error = s.error ∧
      (setLoading s b).loading = b) ∧
    (∀ (s : UserState) (e : Option String),
      (setError s e).user = s.user ∧ (setError s e).loading = s.loading ∧
      (setError s e).error = e) ∧
    (∀ s : UserState, s = ⟨s.user, s.loading, s.error⟩) :=
  ⟨rfl, fun _ _ => ⟨rfl, rfl, rfl⟩, fun _ _ => ⟨rfl, rfl, rfl⟩,
   fun _ _ => ⟨rfl, rfl, rfl⟩, fun _ => rfl⟩

/-- Claim C10: the chat route answers only in two cases — the contact-admin
template when the lowercased message equals `no` (otherwise it falls through
without responding), and 500 with the error-response template when an error
is thrown (a request without a message string). -/
theorem chatHandler_spec (tCA tER m : String) :
    chatHandler tCA tER none = .json 500 tER ∧
    chatHandler tCA tER (some m) =
      (if toLowerStr m = "no" then ChatResp.json 200 tCA else ChatResp.noResponse) := by
  refine ⟨rfl, ?_⟩
  simp only [chatHandler, beq_iff_eq]

/-- Claim C8: every conversation record the create handler or the
smart-response handler inserts has its `conversationId` equal to its
`eventUserId`. -/
theorem routes_insert_conversationId_inv :
    (∀ (convs : List Conversation) (storeOk : Bool) (eid s m : String)
       (now : Nat) (c : Conversation),
       c ∈ (createConversation convs storeOk eid s m now).2 →
       c ∈ convs ∨ c.conversationId = c.eventUserId) ∧
    (∀ (db : DB) (g : ChatMessage) (t1 t2 t3 eid msg ai : String) (now : Nat)
       (sent : List ChatMessage) (fin : String) (db' : DB),
       smartResponse db g t1 t2 t3 eid msg ai now = .ok sent fin db' →
       ∀ c ∈ db'.conversations,
         c ∈ db.conversations ∨ c.conversationId = c.eventUserId) := by
  constructor
  · intro convs storeOk eid s m now c hc
    cases storeOk with
    | false => exact Or.inl hc
    | true =>
      simp only [createConversation, if_pos] at hc
      rcases List.mem_append.mp hc with h | h
      · exact Or.inl h
      · right
        rw [List.mem_singleton.mp h]
  · intro db g t1 t2 t3 eid msg ai now sent fin db' h c hc
    obtain ⟨-, -, hdb⟩ := smartResponse_ok_inv h
    rw [hdb] at hc
    rcases List.mem_append.mp hc with h' | h'
    · exact Or.inl h'
    · right
      rw [List.mem_singleton.mp h']

/-- Witness for the C8 invariant at concrete inputs: a record inserted by
each handler satisfies the invariant. -/
theorem routes_insert_conversationId_inv_witness :
    ((⟨"e1", "e1", "user", "hello", 3⟩ : Conversation) ∈ ([] : List Conversation) ∨
      (⟨"e1", "e1", "user", "hello", 3⟩ : Conversation).conversationId =
        (⟨"e1", "e1", "user", "hello", 3⟩ : Conversation).eventUserId) ∧
    ((⟨"eu1", "eu1", "bot", "Hello there", 7⟩ : Conversation) ∈ exDB.conversations ∨
      (⟨"eu1", "eu1", "bot", "Hello there", 7⟩ : Conversation).conversationId =
        (⟨"eu1", "eu1", "bot", "Hello there", 7⟩ : Conversation).eventUserId) :=
  ⟨routes_insert_conversationId_inv.1 [] true "e1" "user" "hello" 3 _ (by decide),
   routes_insert_conversationId_inv.2 exDB exGreeting "W1" "W2" "W3" "eu1" "hi"
     "Hello there" 7 exSent "Hello there" exDBAfter (by decide) _ (by decide)⟩

/-- Claim C1 (counterexample): on a special-needs reply the handler stores
and returns a message that is neither the model's reply nor any of the three
canned templates, but the reply's first sentence glued to the
final-recommendation template. -/
theorem smart_override_beyond_templates_cex :
    smartResponse exDB exGreeting "TCAR" "TFIN" "TCON" "eu1" "hi"
        "We recommend parking here since you are pregnant. More text." 7 =
      .ok exSent "We recommend parking here since you are pregnant.\n\nTFIN"
        { exDB with conversations := exDB.conversations ++
            [⟨"eu1", "eu1", "bot",
              "We recommend parking here since you are pregnant.\n\nTFIN", 7⟩] } ∧
    "We recommend parking here since you are pregnant.\n\nTFIN" ≠
      "We recommend parking here since you are pregnant. More text." ∧
    "We recommend parking here since you are pregnant.\n\nTFIN" ≠ "TCAR" ∧
    "We recommend parking here since you are pregnant.\n\nTFIN" ≠ "TFIN" ∧
    "We recommend parking here since you are pregnant.\n\nTFIN" ≠ "TCON" := by
  refine ⟨by decide, by decide, by decide, by decide, by decide⟩

/-- Claim C1 (amended): the final message the smart-response handler stores
and returns is the model's reply unchanged, one of the canned templates
(carRegistration, finalRecommendation, contactAdmin), or — in the
special-needs case — the reply's first sentence followed by a blank line and
the finalRecommendation template. -/
theorem smart_finalMessage_classified (db : DB) (g : ChatMessage)
    (t1 t2 t3 eid msg ai : String) (now : Nat)
    (sent : List ChatMessage) (fin : String) (db' : DB)
    (h : smartResponse db g t1 t2 t3 eid msg ai now = .ok sent fin db') :
    (fin = ai ∨ fin = t1 ∨ fin = t2 ∨ fin = t3 ∨
      fin = specialNeedsMessage t2 ai) ∧
    db'.conversations = db.conversations ++ [⟨eid, eid, "bot", fin, now⟩] := by
  obtain ⟨-, h2, h3⟩ := smartResponse_ok_inv h
  subst h2
  exact ⟨smartFinalMessage_cases t1 t2 t3 ai, by rw [h3]⟩

/-- Witness for the amended C1 at a concrete store and reply. -/
theorem smart_finalMessage_classified_witness :
    (("Hello there" : String) = "Hello there" ∨ ("Hello there" : String) = "W1" ∨
      ("Hello there" : String) = "W2" ∨ ("Hello there" : String) = "W3" ∨
      ("Hello there" : String) = specialNeedsMessage "W2" "Hello there") ∧
    exDBAfter.conversations = exDB.conversations ++
      [⟨"eu1", "eu1", "bot", "Hello there", 7⟩] :=
  smart_finalMessage_classified exDB exGreeting "W1" "W2" "W3" "eu1" "hi"
    "Hello there" 7 exSent "Hello there" exDBAfter (by decide)

/-- Claim C3: the message list the smart-response handler sends to the
completion API is the initial-greeting template, then the fetched history in
order with role `user` for records whose sender is `user` and `assistant`
otherwise, then the new user message. -/
theorem smart_sent_messages (db : DB) (g : ChatMessage)
    (t1 t2 t3 eid msg ai : String) (now : Nat)
    (sent : List ChatMessage) (fin : String) (db' : DB)
    (h : smartResponse db g t1 t2 t3 eid msg ai now = .ok sent fin db') :
    sent = g :: (historyQuery db.conversations eid).map (fun m =>
        { role := if m.sender == "user" then Role.user else Role.assistant
          content := m.message }) ++
      [{ role := Role.user, content := msg }] :=
  (smartResponse_ok_inv h).1

/-- Witness for C3 at a concrete store with a two-message history. -/
theorem smart_sent_messages_witness :
    exSent = exGreeting :: (historyQuery exDB.conversations "eu1").map (fun m =>
        { role := if m.sender == "user" then Role.user else Role.assistant
          content := m.message }) ++
      [{ role := Role.user, content := "hi" }] :=
  smart_sent_messages exDB exGreeting "W1" "W2" "W3" "eu1" "hi" "Hello there" 7
    exSent "Hello there" exDBAfter (by decide)

/-- Claim C6: the history route answers exactly the stored records whose
`eventUserId` matches — every matching record and no other — ascending by
creation time, and leaves the store unchanged. -/
theorem getConversations_spec (db : DB) (eid : String) :
    getConversations db eid = (.ok 200 (matchingAsc db.conversations eid), db) ∧
    (matchingAsc db.conversations eid).all (fun c => c.eventUserId == eid) = true ∧
    (matchingAsc db.conversations eid).Perm
      (db.conversations.filter (fun c => c.eventUserId == eid)) ∧
    List.Sorted convLe (matchingAsc db.conversations eid) := by
  refine ⟨rfl, ?_, matchingAsc_perm db.conversations eid,
    matchingAsc_sorted db.conversations eid⟩
  rw [List.all_eq_true]
  intro c hc
  have hmem : c ∈ db.conversations.filter (fun c => c.eventUserId == eid) :=
    (matchingAsc_perm db.conversations eid).mem_iff.mp hc
  exact (List.mem_filter.mp hmem).2

/-- Claim C9: the smart-response history query returns at most 10 records,
namely the first 10 of the matching records in ascending creation order, so
each returned record is at least as old as every matching record left out. -/
theorem historyQuery_spec (convs : List Conversation) (eid : String) :
    (historyQuery convs eid).length ≤ 10 ∧
    historyQuery convs eid = (matchingAsc convs eid).take 10 ∧
    (historyQuery convs eid ++ (matchingAsc convs eid).drop 10).Perm
      (convs.filter (fun c => c.eventUserId == eid)) ∧
    (historyQuery convs eid).all (fun x =>
      ((matchingAsc convs eid).drop 10).all (fun y =>
        decide (x.createdAt ≤ y.createdAt))) = true := by
  refine ⟨?_, rfl, ?_, ?_⟩
  · unfold historyQuery
    rw [List.length_take]
    exact min_le_left _ _
  · show ((matchingAsc convs eid).take 10 ++ (matchingAsc convs eid).drop 10).Perm _
    rw [List.take_append_drop]
    exact matchingAsc_perm convs eid
  · have hs := matchingAsc_sorted convs eid
    rw [← List.take_append_drop 10 (matchingAsc convs eid)] at hs
    have hp : List.Pairwise convLe
        ((matchingAsc convs eid).take 10 ++ (matchingAsc convs eid).drop 10) := hs
    rw [List.pairwise_append] at hp
    rw [List.all_eq_true]
    intro x hx
    rw [List.all_eq_true]
    intro y hy
    exact decide_eq_true (hp.2.2 x hx y hy)

/-- Updating the car plate of the user a `find?` returns commutes with the
`find?`: the lookup after the map yields the updated record. -/
lemma find?_map_carPlate (l : List User) (uid cp : String) (u : User)
    (h : l.find? (fun v => v.id == uid) = some u) :
    (l.map (fun v => if v.id == uid then { v with carPlate := some cp } else v)).find?
      (fun v => v.id == uid) = some { u with carPlate := some cp } := by
  induction l with
  | nil => simp at h
  | cons a t ih =>
    by_cases ha : (a.id == uid) = true
    · simp only [List.map_cons, List.find?_cons, ha, if_pos, Option.some.injEq] at h ⊢
      rw [h]
    · rw [Bool.not_eq_true] at ha
      simp only [List.map_cons, List.find?_cons, ha, Bool.false_eq_true, if_false] at h ⊢
      exact ih h

/-- Claim C4: register-plate answers 404 and leaves the store unchanged when
the event user is absent; when it exists (and the store is consistent, i.e.
the associated user record exists) exactly that user's `carPlate` is set to
the supplied value — every other user record is kept — and the route answers
with the re-fetched event user including user and event. -/
theorem registerPlate_spec (db : DB) (eid cp : String) :
    (db.eventUsers.find? (fun e => e.id == eid) = none →
      registerPlate db eid cp = (.notFound 404 "Event user not found", db)) ∧
    (∀ (eu : EventUser) (u : User),
      db.eventUsers.find? (fun e => e.id == eid) = some eu →
      db.users.find? (fun v => v.id == eu.userId) = some u →
      registerPlate db eid cp =
        (.ok 200 (some (eu, some { u with carPlate := some cp },
            db.events.find? (fun ev => ev.id == eu.eventId))),
         { db with users := db.users.map (fun v =>
             if v.id == eu.userId then { v with carPlate := some cp } else v) }) ∧
      (db.users.all (fun v => v.id == eu.userId ||
          decide (v ∈ db.users.map (fun w =>
            if w.id == eu.userId then { w with carPlate := some cp } else w)))) = true) := by
  constructor
  · intro h
    unfold registerPlate
    rw [h]
  · intro eu u heu hu
    constructor
    · simp only [registerPlate, heu, hu, Option.map_some']
      rw [find?_map_carPlate db.users eu.userId cp u hu]
    · rw [List.all_eq_true]
      intro v hv
      simp only [Bool.or_eq_true, decide_eq_true_eq]
      by_cases hvid : (v.id == eu.userId) = true
      · exact Or.inl hvid
      · right
        have hm := List.mem_map_of_mem
          (fun w => if w.id == eu.userId then { w with carPlate := some cp } else w) hv
        simpa [hvid] using hm

/-- Witness for C4: the 404 branch on an unknown event user and the success
branch on the example store. -/
theorem registerPlate_spec_witness :
    registerPlate exDB "nobody" "ABC123" =
      (.notFound 404 "Event user not found", exDB) ∧
    (registerPlate exDB "eu1" "ABC123" =
      (.ok 200 (some (exEventUser, some { exUser with carPlate := some "ABC123" },
          exDB.events.find? (fun ev => ev.id == exEventUser.eventId))),
       { exDB with users := exDB.users.map (fun v =>
           if v.id == exEventUser.userId then { v with carPlate := some "ABC123" } else v) }) ∧
     (exDB.users.all (fun v => v.id == exEventUser.userId ||
         decide (v ∈ exDB.users.map (fun w =>
           if w.id == exEventUser.userId then { w with carPlate := some "ABC123" } else w)))) = true) :=
  ⟨(registerPlate_spec exDB "nobody" "ABC123").1 rfl,
   (registerPlate_spec exDB "eu1" "ABC123").2 exEventUser exUser rfl rfl⟩

end Copilot
